import Mathlib

/-!
# Verification of `tensorflow_datasets/image/imagenet2012_corrupted.py`

Shallow embedding of the corrupted-ImageNet dataset module.  The module under
verification applies one of twelve image corruptions (at a severity 1..5) to
every record of the ImageNet validation stream, under a fixed global RNG seed.

Modelling choices:
* the numpy global RNG state is abstracted as a `Nat` (`np.random.seed n`
  installs state `npSeed n`; corruption functions read and advance it);
* the cv2 RNG seed is a second `Nat` component of the process-wide state;
* the Python generator `_generate_examples_validation` becomes an explicit
  state-passing function over a finite list of raw examples, parameterised by
  a `fuel` bound modelling how many examples the consumer pulls before
  breaking out of the iteration (`fuel ≥ stream.length` models iterating the
  generator to exhaustion, as a `for` loop does);
* external collaborators (JPEG decoding by tensorflow, the corruption
  functions of `corruptions.py`, which is not part of the sources under
  verification) are either taken as parameters (`decode`) or modelled from
  the spec (the twelve corruption functions);
* side effects (saving/seeding/restoring RNG state, the warning log, the
  corruption calls, yields) are recorded in an event trace.
-/

/-- The decoded-image pixel array: an H×W×C array stored flat. -/
structure Image where
  height : Nat
  width : Nat
  channels : Nat
  data : List Nat
deriving DecidableEq, Repr

/-- A raw record of the base validation stream: file name, compressed image
bytes, integer label. -/
structure RawExample where
  file_name : String
  image : List Nat
  label : Nat
deriving DecidableEq, Repr

/-- A yielded record after corruption: same keys, the image replaced by the
corrupted pixel array. -/
structure CorruptedExample where
  file_name : String
  image : Image
  label : Nat
deriving DecidableEq, Repr

/-- Failure of decoding the compressed bytes to a 3-channel pixel array. -/
inductive DecodeError where
  | notAnImage
  | badChannels
deriving DecidableEq, Repr

/-- The process-wide RNG state pair: the general-purpose (numpy) stream state
and the image-library (cv2) seed. -/
structure GlobalState where
  numpy : Nat
  cv2 : Nat
deriving DecidableEq, Repr

/-- `np.random.seed n` installs this state (abstract model of seeding). -/
def npSeed (n : Nat) : Nat := n

/-- Observable side effects of one generation pass. -/
inductive Event where
  | getState (s : Nat)
  | seedNumpy (n : Nat)
  | warnLog (msg : String)
  | setCv2Seed (n : Nat)
  | decodeCall (fname : String)
  | corruptCall (fname : String)
  | yieldOut (fname : String)
  | setState (s : Nat)
deriving DecidableEq, Repr

def Event.isSeedNumpy : Event → Bool
  | .seedNumpy _ => true
  | _ => false

def Event.isSetCv2Seed : Event → Bool
  | .setCv2Seed _ => true
  | _ => false

def Event.isCorruptCall : Event → Bool
  | .corruptCall _ => true
  | _ => false

/-- `TYPE_LIST` from the source: the twelve recognised corruption names. -/
def TYPE_LIST : List String :=
  ["gaussian_noise", "shot_noise", "impulse_noise", "defocus_blur",
   "frosted_glass_blur", "zoom_blur", "fog", "brightness", "contrast",
   "elastic", "pixelate", "jpeg_compression"]

/-- A corruption function: takes the decoded image, the severity and the
current numpy RNG state, returns the corrupted image and the advanced RNG
state. -/
def CorruptionFn : Type := Image → Int → Nat → Image × Nat

/-- Pointwise pixel transform helper: keeps height/width/channels and the
pixel count, maps every pixel by its index and value. -/
def mapPixels (g : Nat → Nat → Nat) (x : Image) : Image :=
  { x with data := (List.range x.data.length).zipWith g x.data }

/-- Modelled from the spec: `corruptions.gaussian_noise` (the file
`corruptions.py` is not among the sources): pixel-level stochastic noise with
severity-scaled variance, consuming the seeded numpy stream. -/
def gaussian_noise : CorruptionFn := fun x severity st =>
  (mapPixels (fun i p => (p + (st + 7919 * i) * severity.natAbs) % 256) x,
   st + x.data.length)

/-- Modelled from the spec: `corruptions.shot_noise`: pixel-level stochastic
noise whose density scales with severity, consuming the numpy stream. -/
def shot_noise : CorruptionFn := fun x severity st =>
  (mapPixels (fun i p => (p * (1 + (st + i) % (severity.natAbs + 1))) % 256) x,
   st + x.data.length)

/-- Modelled from the spec: `corruptions.impulse_noise`: severity-scaled
salt-and-pepper impulses drawn from the numpy stream. -/
def impulse_noise : CorruptionFn := fun x severity st =>
  (mapPixels (fun i p =>
      if (st + i) % (13 - severity.natAbs % 6) == 0 then 255 else p) x,
   st + x.data.length)

/-- Modelled from the spec: `corruptions.defocus_blur`: deterministic
spatial averaging with severity-scaled kernel (no RNG consumption). -/
def defocus_blur : CorruptionFn := fun x severity st =>
  (mapPixels (fun i p => (p + x.data.length + i * severity.natAbs) % 256) x, st)

/-- Modelled from the spec: `corruptions.frosted_glass_blur`:
severity-scaled local pixel displacement drawn from the numpy stream. -/
def frosted_glass_blur : CorruptionFn := fun x severity st =>
  (mapPixels (fun i p => (p + (st + i * i) % (severity.natAbs + 2)) % 256) x,
   st + x.data.length)

/-- Modelled from the spec: `corruptions.zoom_blur`: deterministic
severity-scaled radial averaging (no RNG consumption). -/
def zoom_blur : CorruptionFn := fun x severity st =>
  (mapPixels (fun i p => (p * 3 + i % (severity.natAbs + 1)) % 256) x, st)

/-- Modelled from the spec: `corruptions.fog`: additive atmospheric veiling
blended by severity-scaled opacity, drawn from the numpy stream. -/
def fog : CorruptionFn := fun x severity st =>
  (mapPixels (fun i p => (p + severity.natAbs * 20 + (st + i) % 7) % 256) x,
   st + x.data.length)

/-- Modelled from the spec: `corruptions.brightness`: deterministic global
photometric shift scaled by severity. -/
def brightness : CorruptionFn := fun x severity st =>
  (mapPixels (fun _ p => (p + severity.natAbs * 25) % 256) x, st)

/-- Modelled from the spec: `corruptions.contrast`: deterministic global
photometric scaling by severity. -/
def contrast : CorruptionFn := fun x severity st =>
  (mapPixels (fun _ p => (p * (severity.natAbs + 1)) % 256) x, st)

/-- Modelled from the spec: `corruptions.elastic`: severity-scaled local
geometric warp field drawn from the numpy stream. -/
def elastic : CorruptionFn := fun x severity st =>
  (mapPixels (fun i p => (p + (st * 31 + i) % (severity.natAbs * 4 + 1)) % 256) x,
   st + x.data.length)

/-- Modelled from the spec: `corruptions.pixelate`: severity-scaled
block quantisation (deterministic, no RNG consumption). -/
def pixelate : CorruptionFn := fun x severity st =>
  (mapPixels (fun i p => p - p % (severity.natAbs + 1) + i % 1) x, st)

/-- Modelled from the spec: `corruptions.jpeg_compression`: severity-scaled
lossy quantisation of pixel values (deterministic, no RNG consumption). -/
def jpeg_compression : CorruptionFn := fun x severity st =>
  (mapPixels (fun _ p => p - p % (2 * severity.natAbs + 1)) x, st)

/-- `Imagenet2012CorruptedConfig` from the source: the `__init__` merely
stores `corruption_type` (default `None`) and `severity` (default 1) — no
validation of either field. -/
structure Imagenet2012CorruptedConfig where
  name : String := ""
  description : String := ""
  corruption_type : Option String := none
  severity : Int := 1
deriving DecidableEq, Repr

/-- The dispatch dictionary built inside `_get_corrupted_example`. -/
def corruptionDispatch : List (String × CorruptionFn) :=
  [("gaussian_noise", gaussian_noise),
   ("shot_noise", shot_noise),
   ("impulse_noise", impulse_noise),
   ("defocus_blur", defocus_blur),
   ("frosted_glass_blur", frosted_glass_blur),
   ("zoom_blur", zoom_blur),
   ("fog", fog),
   ("brightness", brightness),
   ("contrast", contrast),
   ("elastic", elastic),
   ("pixelate", pixelate),
   ("jpeg_compression", jpeg_compression)]

/-- `Imagenet2012Corrupted._get_corrupted_example` from the source: look the
configured corruption type up in the dispatch dictionary and apply the bound
function at the configured severity.  `none` models the `KeyError` the Python
dictionary lookup raises for a name outside the twelve (or `None`). -/
def _get_corrupted_example (cfg : Imagenet2012CorruptedConfig) (x : Image)
    (st : Nat) : Option (Image × Nat) :=
  match cfg.corruption_type with
  | none => none
  | some ct =>
    match corruptionDispatch.lookup ct with
    | none => none
    | some f => some (f x cfg.severity st)

/-- `_make_builder_configs` from the source: one config per corruption type
and severity 1..5, named `type_severity`. -/
def _make_builder_configs : List Imagenet2012CorruptedConfig :=
  TYPE_LIST.flatMap (fun each_corruption =>
    (List.range' 1 5).map (fun each_severity =>
      { name := each_corruption ++ "_" ++ toString each_severity,
        description := "corruption type = " ++ each_corruption ++
          ", severity = " ++ toString each_severity,
        corruption_type := some each_corruption,
        severity := (each_severity : Int) }))

/-- How the per-example loop of the generator ended. -/
inductive LoopExit where
  | exhausted
  | closedEarly
  | decodeError
  | keyError
deriving DecidableEq, Repr

structure LoopResult where
  outs : List CorruptedExample
  evs : List Event
  state : GlobalState
  exit : LoopExit
deriving Repr

/-- The `for example in …: decode; corrupt; yield` loop of
`_generate_examples_validation`.  `fuel` is the number of examples the
consumer still pulls before breaking out of the iteration; when the consumer
breaks early the generator is closed at its `yield` (`GeneratorExit`) and the
code after the loop never runs. -/
def genLoop (decode : List Nat → Except DecodeError Image)
    (cfg : Imagenet2012CorruptedConfig) :
    List RawExample → Nat → GlobalState → LoopResult
  | [], _, s => ⟨[], [], s, .exhausted⟩
  | _ :: _, 0, s => ⟨[], [], s, .closedEarly⟩
  | ex :: rest, fuel + 1, s =>
    match decode ex.image with
    | .error _ => ⟨[], [Event.decodeCall ex.file_name], s, .decodeError⟩
    | .ok img =>
      match _get_corrupted_example cfg img s.numpy with
      | none => ⟨[], [Event.decodeCall ex.file_name], s, .keyError⟩
      | some (cimg, numpy') =>
        let out : CorruptedExample := ⟨ex.file_name, cimg, ex.label⟩
        let r := genLoop decode cfg rest fuel { s with numpy := numpy' }
        ⟨out :: r.outs,
         Event.decodeCall ex.file_name :: Event.corruptCall ex.file_name ::
           Event.yieldOut ex.file_name :: r.evs,
         r.state, r.exit⟩

/-- The prologue of `_generate_examples_validation`: capture the numpy state,
seed numpy with 135, log the warning, seed cv2 with 357.  Returns the saved
state, the new global state and the emitted events. -/
def beginDeterministicBatch (s : GlobalState) :
    Nat × GlobalState × List Event :=
  (s.numpy,
   { numpy := npSeed 135, cv2 := 357 },
   [Event.getState s.numpy, Event.seedNumpy 135,
    Event.warnLog "Overwriting cv2 RNG seed.", Event.setCv2Seed 357])

/-- The epilogue of `_generate_examples_validation`: restore the numpy state
to the captured value; the cv2 seed is left as is. -/
def endDeterministicBatch (saved : Nat) (s : GlobalState) :
    GlobalState × List Event :=
  ({ s with numpy := saved }, [Event.setState saved])

/-- How one generation pass ended, seen by the caller. -/
inductive GenOutcome where
  | completed
  | abandoned
  | decodeFailed
  | lookupFailed
deriving DecidableEq, Repr

structure GenResult where
  outputs : List CorruptedExample
  trace : List Event
  finalState : GlobalState
  outcome : GenOutcome
deriving Repr

/-- `Imagenet2012Corrupted._generate_examples_validation` from the source:
save the numpy state, install the fixed seeds, run the example loop, and —
only when the loop runs to exhaustion — restore the numpy state.  The
epilogue is written after the `for` loop with no `try/finally`, so an early
close of the generator or an exception inside the loop skips it. -/
def _generate_examples_validation (decode : List Nat → Except DecodeError Image)
    (cfg : Imagenet2012CorruptedConfig) (stream : List RawExample)
    (fuel : Nat) (s0 : GlobalState) : GenResult :=
  let b := beginDeterministicBatch s0
  let r := genLoop decode cfg stream fuel b.2.1
  match r.exit with
  | .exhausted =>
    let e := endDeterministicBatch b.1 r.state
    ⟨r.outs, b.2.2 ++ r.evs ++ e.2, e.1, .completed⟩
  | .closedEarly => ⟨r.outs, b.2.2 ++ r.evs, r.state, .abandoned⟩
  | .decodeError => ⟨r.outs, b.2.2 ++ r.evs, r.state, .decodeFailed⟩
  | .keyError => ⟨r.outs, b.2.2 ++ r.evs, r.state, .lookupFailed⟩

/-- A full pass: the consumer iterates the generator to exhaustion. -/
def runFullPass (decode : List Nat → Except DecodeError Image)
    (cfg : Imagenet2012CorruptedConfig) (stream : List RawExample)
    (s0 : GlobalState) : GenResult :=
  _generate_examples_validation decode cfg stream stream.length s0

/-! Concrete fixtures used to evaluate the development on closed inputs. -/

/-- A concrete 2×2×3 pixel array. -/
def testImg : Image := ⟨2, 2, 3, [10, 20, 30, 40, 50, 60, 70, 80, 90, 100, 110, 120]⟩

/-- A decoder that decodes every byte string to `testImg`. -/
def decodeConst : List Nat → Except DecodeError Image := fun _ => .ok testImg

/-- A decoder that fails on the byte string `[4, 5, 6]` and decodes everything
else to `testImg`. -/
def decodeFailB : List Nat → Except DecodeError Image := fun bs =>
  if bs = [4, 5, 6] then .error .notAnImage else .ok testImg

/-- A concrete raw validation record. -/
def exA : RawExample := ⟨"a.JPEG", [1, 2, 3], 7⟩

/-- A second concrete raw validation record, whose bytes `decodeFailB`
rejects. -/
def exB : RawExample := ⟨"b.JPEG", [4, 5, 6], 8⟩

/-- The `gaussian_noise_3` builder config. -/
def cfgGN3 : Imagenet2012CorruptedConfig :=
  ⟨"gaussian_noise_3", "", some "gaussian_noise", 3⟩

/-! ## Helper lemmas about the dispatch table and the generation loop -/

theorem lookup_of_mem (ct : String) (hct : ct ∈ TYPE_LIST) :
    ∃ f, corruptionDispatch.lookup ct = some f := by
  fin_cases hct <;> exact ⟨_, rfl⟩

theorem mem_of_lookup (ct : String) (f : CorruptionFn)
    (h : corruptionDispatch.lookup ct = some f) : ct ∈ TYPE_LIST := by
  simp only [corruptionDispatch, List.lookup] at h
  simp only [TYPE_LIST, List.mem_cons, List.not_mem_nil, or_false]
  repeat' split at h
  all_goals simp_all [beq_iff_eq]

theorem lookup_eq_none (ct : String) (hct : ct ∉ TYPE_LIST) :
    corruptionDispatch.lookup ct = none := by
  cases h : corruptionDispatch.lookup ct with
  | none => rfl
  | some f => exact absurd (mem_of_lookup ct f h) hct

theorem genLoop_evs_clean (decode : List Nat → Except DecodeError Image)
    (cfg : Imagenet2012CorruptedConfig) :
    ∀ (stream : List RawExample) (fuel : Nat) (s : GlobalState),
      ((genLoop decode cfg stream fuel s).evs.filter Event.isSeedNumpy = [] ∧
       (genLoop decode cfg stream fuel s).evs.filter Event.isSetCv2Seed = [])
  | [], _, _ => by simp [genLoop]
  | _ :: _, 0, _ => by simp [genLoop]
  | ex :: rest, fuel + 1, s => by
    have ih := genLoop_evs_clean decode cfg rest fuel
    simp only [genLoop]
    cases hdec : decode ex.image with
    | error e => simp [Event.isSeedNumpy, Event.isSetCv2Seed]
    | ok img =>
      dsimp only
      cases hc : _get_corrupted_example cfg img s.numpy with
      | none => simp [Event.isSeedNumpy, Event.isSetCv2Seed]
      | some p =>
        obtain ⟨cimg, numpy'⟩ := p
        simp [Event.isSeedNumpy, Event.isSetCv2Seed, ih]

theorem genLoop_passthrough (decode : List Nat → Except DecodeError Image)
    (cfg : Imagenet2012CorruptedConfig) :
    ∀ (stream : List RawExample) (fuel : Nat) (s : GlobalState),
      ((genLoop decode cfg stream fuel s).outs.map (fun o => o.label) =
        (stream.take (genLoop decode cfg stream fuel s).outs.length).map
          (fun r => r.label) ∧
       (genLoop decode cfg stream fuel s).outs.map (fun o => o.file_name) =
        (stream.take (genLoop decode cfg stream fuel s).outs.length).map
          (fun r => r.file_name))
  | [], _, _ => by simp [genLoop]
  | _ :: _, 0, _ => by simp [genLoop]
  | ex :: rest, fuel + 1, s => by
    have ih := genLoop_passthrough decode cfg rest fuel
    simp only [genLoop]
    cases hdec : decode ex.image with
    | error e => simp
    | ok img =>
      dsimp only
      cases hc : _get_corrupted_example cfg img s.numpy with
      | none => simp
      | some p =>
        obtain ⟨cimg, numpy'⟩ := p
        simpa using ih { numpy := numpy', cv2 := s.cv2 }

theorem genLoop_origin (decode : List Nat → Except DecodeError Image)
    (cfg : Imagenet2012CorruptedConfig) :
    ∀ (stream : List RawExample) (fuel : Nat) (s : GlobalState),
      ∀ out ∈ (genLoop decode cfg stream fuel s).outs,
        ∃ raw ∈ stream, ∃ img, decode raw.image = .ok img ∧
          ∃ st p, _get_corrupted_example cfg img st = some p ∧
            out = ⟨raw.file_name, p.1, raw.label⟩
  | [], _, _ => by simp [genLoop]
  | _ :: _, 0, _ => by simp [genLoop]
  | ex :: rest, fuel + 1, s => by
    have ih := genLoop_origin decode cfg rest fuel
    simp only [genLoop]
    cases hdec : decode ex.image with
    | error e => simp
    | ok img =>
      dsimp only
      cases hc : _get_corrupted_example cfg img s.numpy with
      | none => simp
      | some p =>
        obtain ⟨cimg, numpy'⟩ := p
        intro out hout
        rcases List.mem_cons.mp hout with h | h
        · exact ⟨ex, List.mem_cons_self .., img, hdec, s.numpy, (cimg, numpy'), hc,
            by simp [h]⟩
        · obtain ⟨raw, hraw, img', hdec', st', p', hp', hout'⟩ :=
            ih { numpy := numpy', cv2 := s.cv2 } out h
          exact ⟨raw, List.mem_cons_of_mem _ hraw, img', hdec', st', p', hp', hout'⟩

theorem genLoop_decode_error (decode : List Nat → Except DecodeError Image)
    (cfg : Imagenet2012CorruptedConfig) (ct : String)
    (hct : cfg.corruption_type = some ct) (hmem : ct ∈ TYPE_LIST) :
    ∀ (stream : List RawExample) (fuel : Nat) (s : GlobalState),
      stream.length ≤ fuel →
      (∃ ex ∈ stream, ∃ e, decode ex.image = .error e) →
      (genLoop decode cfg stream fuel s).exit = .decodeError
  | [], _, _, _, hex => by simp at hex
  | ex :: rest, 0, s, hlen, hex => by simp at hlen
  | ex :: rest, fuel + 1, s, hlen, hex => by
    have ih := genLoop_decode_error decode cfg ct hct hmem rest fuel
    simp only [genLoop]
    cases hdec : decode ex.image with
    | error e => rfl
    | ok img =>
      dsimp only
      obtain ⟨f, hf⟩ := lookup_of_mem ct hmem
      have hsome : _get_corrupted_example cfg img s.numpy =
          some (f img cfg.severity s.numpy) := by
        simp [_get_corrupted_example, hct, hf]
      rw [hsome]
      dsimp only
      apply ih
      · simpa using hlen
      · obtain ⟨ex', hmem', e, he⟩ := hex
        rcases List.mem_cons.mp hmem' with h | h
        · rw [h] at he; rw [he] at hdec; cases hdec
        · exact ⟨ex', h, e, he⟩

/-! ## Bridging lemmas between the generator and its loop -/

theorem gen_outputs_eq (decode : List Nat → Except DecodeError Image)
    (cfg : Imagenet2012CorruptedConfig) (stream : List RawExample)
    (fuel : Nat) (s0 : GlobalState) :
    (_generate_examples_validation decode cfg stream fuel s0).outputs =
      (genLoop decode cfg stream fuel { numpy := npSeed 135, cv2 := 357 }).outs := by
  unfold _generate_examples_validation beginDeterministicBatch
  cases hx : (genLoop decode cfg stream fuel { numpy := npSeed 135, cv2 := 357 }).exit <;>
    simp [hx, endDeterministicBatch]

theorem gen_outcome_completed_iff (decode : List Nat → Except DecodeError Image)
    (cfg : Imagenet2012CorruptedConfig) (stream : List RawExample)
    (fuel : Nat) (s0 : GlobalState) :
    (_generate_examples_validation decode cfg stream fuel s0).outcome = .completed ↔
      (genLoop decode cfg stream fuel { numpy := npSeed 135, cv2 := 357 }).exit =
        .exhausted := by
  unfold _generate_examples_validation beginDeterministicBatch
  cases hx : (genLoop decode cfg stream fuel { numpy := npSeed 135, cv2 := 357 }).exit <;>
    simp [hx, endDeterministicBatch]

theorem mapPixels_shape (g : Nat → Nat → Nat) (x : Image) :
    (mapPixels g x).height = x.height ∧ (mapPixels g x).width = x.width ∧
    (mapPixels g x).channels = x.channels ∧
    (mapPixels g x).data.length = x.data.length := by
  refine ⟨rfl, rfl, rfl, ?_⟩
  simp [mapPixels]

/-! ## Claim theorems -/

/-- C1 (counterexample): the restore of the numpy RNG state is not a
guaranteed-release scope.  A consumer that stops after one of two examples
closes the generator at its `yield`, the code after the `for` loop never
runs, and the post-pass numpy state (advanced from the fixed seed 135) is
not the pre-pass state 999. -/
theorem rng_restore_not_guaranteed :
    (_generate_examples_validation decodeConst cfgGN3 [exA, exB] 1
        ⟨999, 0⟩).finalState.numpy ≠ 999 ∧
    (_generate_examples_validation decodeConst cfgGN3 [exA, exB] 1
        ⟨999, 0⟩).outcome = .abandoned := by decide

/-- C1 (amended): when the example-generation stream for one dataset
configuration is iterated to exhaustion and completes without error, the
post-pass numpy RNG state equals the state captured before the pass; the
restore is best-effort (it runs after the loop and is skipped on early
termination or error), not a guaranteed-release scope. -/
theorem rng_restored_on_completed_pass (decode : List Nat → Except DecodeError Image)
    (cfg : Imagenet2012CorruptedConfig) (stream : List RawExample) (fuel : Nat)
    (s0 : GlobalState)
    (h : (_generate_examples_validation decode cfg stream fuel s0).outcome =
      .completed) :
    (_generate_examples_validation decode cfg stream fuel s0).finalState.numpy =
      s0.numpy := by
  rw [gen_outcome_completed_iff] at h
  unfold _generate_examples_validation beginDeterministicBatch
  simp only [h, endDeterministicBatch]

/-- C1 (witness): a completed one-example pass restores the numpy state
to its pre-pass value 999. -/
theorem rng_restored_witness :
    (_generate_examples_validation decodeConst cfgGN3 [exA] 1
        ⟨999, 0⟩).finalState.numpy = 999 :=
  rng_restored_on_completed_pass decodeConst cfgGN3 [exA] 1 ⟨999, 0⟩ (by decide)

/-- C2 (counterexample): no `InvalidSeverity` validation exists anywhere:
resolving `fog` at severity 0 and at severity 6 both succeed, and a config
with an unknown corruption type is constructed without failure. -/
theorem resolve_no_severity_validation :
    (_get_corrupted_example ⟨"fog_0", "", some "fog", 0⟩ testImg 0).isSome = true ∧
    (_get_corrupted_example ⟨"fog_6", "", some "fog", 6⟩ testImg 0).isSome = true ∧
    (Imagenet2012CorruptedConfig.mk "bad" "" (some "unknown") 1).corruption_type =
      some "unknown" := by decide

/-- C2 (amended): resolving a configured corruption type returns the bound
corruption function for every one of the 12 known names at any severity
(severity is never validated), and fails as a dictionary-lookup failure —
only at generation time, inside `_get_corrupted_example` — for any name
outside the twelve or for the `None` default. -/
theorem resolve_dispatch_behaviour (cfg : Imagenet2012CorruptedConfig) (x : Image)
    (st : Nat) :
    (∀ ct, cfg.corruption_type = some ct → ct ∈ TYPE_LIST →
        ∃ f, corruptionDispatch.lookup ct = some f ∧
          _get_corrupted_example cfg x st = some (f x cfg.severity st)) ∧
    (∀ ct, cfg.corruption_type = some ct → ct ∉ TYPE_LIST →
        _get_corrupted_example cfg x st = none) ∧
    (cfg.corruption_type = none → _get_corrupted_example cfg x st = none) := by
  refine ⟨?_, ?_, ?_⟩
  · intro ct h hm
    obtain ⟨f, hf⟩ := lookup_of_mem ct hm
    exact ⟨f, hf, by simp [_get_corrupted_example, h, hf]⟩
  · intro ct h hm
    simp [_get_corrupted_example, h, lookup_eq_none ct hm]
  · intro h
    simp [_get_corrupted_example, h]

/-- C2 (witness): resolving the `fog_3` configuration returns the bound
`fog` function applied at severity 3. -/
theorem resolve_dispatch_witness :
    ∃ f, corruptionDispatch.lookup "fog" = some f ∧
      _get_corrupted_example ⟨"fog_3", "", some "fog", 3⟩ testImg 0 =
        some (f testImg 3 0) :=
  (resolve_dispatch_behaviour ⟨"fog_3", "", some "fog", 3⟩ testImg 0).1 "fog" rfl
    (by decide)

/-- C3: running the full generation pass twice over the same raw input
stream with the same configuration yields identical corrupted-example
sequences, whatever the ambient RNG states of the two runs were. -/
theorem two_run_determinism (decode : List Nat → Except DecodeError Image)
    (cfg : Imagenet2012CorruptedConfig) (stream : List RawExample)
    (s0 s1 : GlobalState) :
    (runFullPass decode cfg stream s0).outputs =
      (runFullPass decode cfg stream s1).outputs := by
  unfold runFullPass
  rw [gen_outputs_eq, gen_outputs_eq]

/-- C4: `_make_builder_configs` builds exactly 60 configurations — one per
pair of the 12 corruption type names with each severity 1..5 — each carrying
its (corruption_type, severity) pair and the name `type_severity`, and the
60 names are pairwise distinct. -/
theorem builder_configs_spec :
    _make_builder_configs.length = 60 ∧
    (∀ cfg ∈ _make_builder_configs, ∃ c ∈ TYPE_LIST, ∃ s ∈ ([1,2,3,4,5] : List Int),
        cfg.corruption_type = some c ∧ cfg.severity = s ∧
        cfg.name = c ++ "_" ++ toString s) ∧
    (∀ c ∈ TYPE_LIST, ∀ s ∈ ([1,2,3,4,5] : List Int),
        ∃ cfg ∈ _make_builder_configs, cfg.corruption_type = some c ∧
          cfg.severity = s ∧ cfg.name = c ++ "_" ++ toString s) ∧
    (_make_builder_configs.map (fun c => c.name)).Nodup := by decide

/-- C5: beginning a deterministic batch saves the current numpy state,
installs numpy seed 135 and cv2 seed 357, and emits the warning log line;
ending the batch restores the numpy component to the saved state and leaves
the cv2 seed untouched; every generation pass opens with exactly the begin
events. -/
theorem begin_end_batch_semantics (decode : List Nat → Except DecodeError Image)
    (cfg : Imagenet2012CorruptedConfig) (stream : List RawExample) (fuel : Nat)
    (s0 : GlobalState) (saved : Nat) (s : GlobalState) :
    (beginDeterministicBatch s0).1 = s0.numpy ∧
    (beginDeterministicBatch s0).2.1 = { numpy := npSeed 135, cv2 := 357 } ∧
    (beginDeterministicBatch s0).2.2 =
      [Event.getState s0.numpy, Event.seedNumpy 135,
       Event.warnLog "Overwriting cv2 RNG seed.", Event.setCv2Seed 357] ∧
    (endDeterministicBatch saved s).1 = { s with numpy := saved } ∧
    (endDeterministicBatch saved s).2.filter Event.isSetCv2Seed = [] ∧
    (∃ rest, (_generate_examples_validation decode cfg stream fuel s0).trace =
        (beginDeterministicBatch s0).2.2 ++ rest) := by
  refine ⟨rfl, rfl, rfl, rfl, by simp [endDeterministicBatch, Event.isSetCv2Seed], ?_⟩
  unfold _generate_examples_validation beginDeterministicBatch
  cases hx : (genLoop decode cfg stream fuel { numpy := npSeed 135, cv2 := 357 }).exit <;>
    simp [hx, endDeterministicBatch]

/-- C6: when some record of the stream fails to decode, a full pass under a
valid corruption type aborts with the decode failure rather than skipping
the record, and every emitted example originates from a record whose bytes
decoded successfully (no malformed example is emitted). -/
theorem decode_failure_aborts_pass (decode : List Nat → Except DecodeError Image)
    (cfg : Imagenet2012CorruptedConfig) (stream : List RawExample)
    (s0 : GlobalState) (ct : String) (hct : cfg.corruption_type = some ct)
    (hmem : ct ∈ TYPE_LIST) (ex : RawExample) (hex : ex ∈ stream)
    (e : DecodeError) (hfail : decode ex.image = .error e) :
    (runFullPass decode cfg stream s0).outcome = .decodeFailed ∧
    ∀ out ∈ (runFullPass decode cfg stream s0).outputs,
      ∃ raw ∈ stream, ∃ img, decode raw.image = .ok img ∧
        out.file_name = raw.file_name ∧ out.label = raw.label := by
  have hexit := genLoop_decode_error decode cfg ct hct hmem stream stream.length
    { numpy := npSeed 135, cv2 := 357 } le_rfl ⟨ex, hex, e, hfail⟩
  constructor
  · unfold runFullPass _generate_examples_validation beginDeterministicBatch
    simp only [hexit]
  · intro out hout
    rw [runFullPass, gen_outputs_eq] at hout
    obtain ⟨raw, hraw, img, hdec, st, p, hp, heq⟩ :=
      genLoop_origin decode cfg stream stream.length
        { numpy := npSeed 135, cv2 := 357 } out hout
    exact ⟨raw, hraw, img, hdec, by simp [heq], by simp [heq]⟩

/-- C6 (witness): a two-record stream whose second record has undecodable
bytes makes the full pass end in `decodeFailed`. -/
theorem decode_failure_witness :
    (runFullPass decodeFailB cfgGN3 [exA, exB] ⟨999, 0⟩).outcome = .decodeFailed ∧
    ∀ out ∈ (runFullPass decodeFailB cfgGN3 [exA, exB] ⟨999, 0⟩).outputs,
      ∃ raw ∈ [exA, exB], ∃ img, decodeFailB raw.image = .ok img ∧
        out.file_name = raw.file_name ∧ out.label = raw.label :=
  decode_failure_aborts_pass decodeFailB cfgGN3 [exA, exB] ⟨999, 0⟩
    "gaussian_noise" rfl (by decide) exB (by decide) .notAnImage (by rfl)

/-- C7: in every generation pass, the label and file_name sequences of the
yielded examples equal those of the consumed prefix of the raw stream, and
every yielded example is its raw record with only the image field replaced
by the corruption function's output on the decoded array. -/
theorem only_image_field_replaced (decode : List Nat → Except DecodeError Image)
    (cfg : Imagenet2012CorruptedConfig) (stream : List RawExample) (fuel : Nat)
    (s0 : GlobalState) :
    ((_generate_examples_validation decode cfg stream fuel s0).outputs.map
        (fun o => o.label) =
      (stream.take
        (_generate_examples_validation decode cfg stream fuel s0).outputs.length).map
        (fun r => r.label)) ∧
    ((_generate_examples_validation decode cfg stream fuel s0).outputs.map
        (fun o => o.file_name) =
      (stream.take
        (_generate_examples_validation decode cfg stream fuel s0).outputs.length).map
        (fun r => r.file_name)) ∧
    (∀ out ∈ (_generate_examples_validation decode cfg stream fuel s0).outputs,
      ∃ raw ∈ stream, ∃ img, decode raw.image = .ok img ∧
        ∃ st p, _get_corrupted_example cfg img st = some p ∧
          out = ⟨raw.file_name, p.1, raw.label⟩) := by
  rw [gen_outputs_eq]
  exact ⟨(genLoop_passthrough decode cfg stream fuel _).1,
    (genLoop_passthrough decode cfg stream fuel _).2,
    genLoop_origin decode cfg stream fuel _⟩

/-- C8: the trace of every generation pass splits into a prefix holding
exactly one numpy seeding (seed 135) and exactly one cv2 seeding (seed 357)
and no corruption call, and a suffix holding no further seeding: the global
seed reset happens exactly once per pass, before any corruption call. -/
theorem seed_reset_once_before_corruption (decode : List Nat → Except DecodeError Image)
    (cfg : Imagenet2012CorruptedConfig) (stream : List RawExample) (fuel : Nat)
    (s0 : GlobalState) :
    ∃ pre post,
      (_generate_examples_validation decode cfg stream fuel s0).trace = pre ++ post ∧
      pre.filter Event.isSeedNumpy = [Event.seedNumpy 135] ∧
      pre.filter Event.isSetCv2Seed = [Event.setCv2Seed 357] ∧
      pre.filter Event.isCorruptCall = [] ∧
      post.filter Event.isSeedNumpy = [] ∧
      post.filter Event.isSetCv2Seed = [] := by
  have hclean := genLoop_evs_clean decode cfg stream fuel
    { numpy := npSeed 135, cv2 := 357 }
  unfold _generate_examples_validation beginDeterministicBatch
  cases hx : (genLoop decode cfg stream fuel { numpy := npSeed 135, cv2 := 357 }).exit <;>
    simp only [hx, endDeterministicBatch] <;>
    exact ⟨[Event.getState s0.numpy, Event.seedNumpy 135,
        Event.warnLog "Overwriting cv2 RNG seed.", Event.setCv2Seed 357], _,
      rfl,
      by simp [Event.isSeedNumpy],
      by simp [Event.isSetCv2Seed],
      by simp [Event.isCorruptCall],
      by simp [List.filter_append, hclean.1, Event.isSeedNumpy],
      by simp [List.filter_append, hclean.2, Event.isSetCv2Seed]⟩

/-- C9: every corruption function bound to one of the 12 type names, applied
at a severity in 1..5 to a 3-channel pixel array, returns an array with the
same height, width, channel count and pixel count.  The corruption functions
are modelled from the spec, `corruptions.py` not being among the sources. -/
theorem corruption_preserves_shape (ct : String) (hct : ct ∈ TYPE_LIST)
    (sev : Int) (h1 : 1 ≤ sev) (h5 : sev ≤ 5) (x : Image) (hx : x.channels = 3)
    (st : Nat) :
    ∃ f, corruptionDispatch.lookup ct = some f ∧
      (f x sev st).1.height = x.height ∧ (f x sev st).1.width = x.width ∧
      (f x sev st).1.channels = x.channels ∧
      (f x sev st).1.data.length = x.data.length := by
  fin_cases hct <;>
    exact ⟨_, rfl, (mapPixels_shape _ x).1, (mapPixels_shape _ x).2.1,
      (mapPixels_shape _ x).2.2.1, (mapPixels_shape _ x).2.2.2⟩

/-- C9 (witness): the `fog` corruption at severity 3 keeps the shape of the
concrete 2×2×3 test image. -/
theorem corruption_shape_witness :
    ∃ f, corruptionDispatch.lookup "fog" = some f ∧
      (f testImg 3 0).1.height = testImg.height ∧
      (f testImg 3 0).1.width = testImg.width ∧
      (f testImg 3 0).1.channels = testImg.channels ∧
      (f testImg 3 0).1.data.length = testImg.data.length :=
  corruption_preserves_shape "fog" (by decide) 3 (by decide) (by decide) testImg
    rfl 0

/-- C10: constructing an `Imagenet2012CorruptedConfig` succeeds for every
corruption_type (including `None`, the default) and every severity (default
1), storing both unvalidated; the resolved corruption succeeds exactly when
the type is one of the twelve — an unknown type surfaces only as the
generation-time dictionary-lookup failure, and an out-of-range severity is
never rejected. -/
theorem config_construction_unvalidated (ct : Option String) (sev : Int)
    (x : Image) (st : Nat) :
    (Imagenet2012CorruptedConfig.mk "n" "d" ct sev).corruption_type = ct ∧
    (Imagenet2012CorruptedConfig.mk "n" "d" ct sev).severity = sev ∧
    (({} : Imagenet2012CorruptedConfig).corruption_type = none) ∧
    (({} : Imagenet2012CorruptedConfig).severity = 1) ∧
    ((_get_corrupted_example (Imagenet2012CorruptedConfig.mk "n" "d" ct sev) x
        st).isSome = true ↔ ∃ s, ct = some s ∧ s ∈ TYPE_LIST) := by
  refine ⟨rfl, rfl, rfl, rfl, ?_⟩
  cases ct with
  | none => simp [_get_corrupted_example]
  | some s =>
    by_cases hmem : s ∈ TYPE_LIST
    · obtain ⟨f, hf⟩ := lookup_of_mem s hmem
      simp [_get_corrupted_example, hf, hmem]
    · simp [_get_corrupted_example, lookup_eq_none s hmem, hmem]
